import Mathlib

/-!
Shallow embedding of Glitter/Sources/main.cpp: a single-file OpenGL tutorial
program that opens a GLFW window, compiles a vertex/fragment shader pair,
uploads one triangle (interleaved position+color) with an index buffer, and
runs a render loop that animates a green value from wall-clock time.

The program is modelled as an event trace: each graphics/windowing API call
the program issues becomes one constructor of GLEvent, and the straight-line
sections of main become concrete event lists.  External inputs (window
creation success, the two compile-status flags and the link-status flag, the
per-iteration escape-key and close-request observations, and the clock) are
parameters of the trace.  The render loop is given fuel: the trace is `none`
when the loop does not terminate within the fuel.
-/

namespace Glitter

/-- The two shader stages compiled by main.cpp (lines 127 and 154). -/
inductive ShaderKind where
  | vertex
  | fragment
  deriving DecidableEq

/-- Buffer binding targets used by main.cpp: GL_ARRAY_BUFFER (line 87) and
GL_ELEMENT_ARRAY_BUFFER (line 91). -/
inductive BufTarget where
  | array
  | elementArray
  deriving DecidableEq

/-- The GLFW window hints set at lines 32-36. -/
inductive Hint where
  | contextVersionMajor
  | contextVersionMinor
  | openglProfile
  | openglForwardCompat
  | resizable
  deriving DecidableEq

/-- GLFW_OPENGL_CORE_PROFILE's numeric value. -/
def glfwOpenglCoreProfile : Nat := 0x00032001

/-- sizeof(float) on the targeted platforms. -/
def floatSize : Nat := 4

/-- sizeof(unsigned int) on the targeted platforms. -/
def uintSize : Nat := 4

/-- The interleaved vertex array of lines 59-64: three vertices, each three
position floats followed by three color floats. -/
def vertices : List ℚ :=
  [0.5, -0.5, 0,   1, 0, 0,
   -0.5, -0.5, 0,  0, 1, 0,
   0, 0.5, 0,      0, 0, 1]

/-- The index array of lines 65-69: a single triangle. -/
def indices : List Nat := [0, 1, 2]

/-- Attribute location for position (line 95). -/
def positionAttribLocation : Nat := 0

/-- Attribute location for color (line 102). -/
def colorAttribLocation : Nat := 1

/-- Floats per interleaved vertex: 3 for position, 3 for color (comment at
lines 96 and 103 of the source). -/
def floatsPerVertex : Nat := 6

/-- positionStride = 6 * sizeof(float) (line 96). -/
def positionStride : Nat := 6 * floatSize

/-- positionOffset = 0 (line 97). -/
def positionOffset : Nat := 0

/-- colorStride = 6 * sizeof(float) (line 103). -/
def colorStride : Nat := 6 * floatSize

/-- colorOffset = 3 * sizeof(float) (line 104). -/
def colorOffset : Nat := 3 * floatSize

/-- The element count passed to glDrawElements in renderObjects (line 22). -/
def drawCount : Nat := 6

/-- The buffer size passed to glGetShaderInfoLog / glGetProgramInfoLog
(lines 138, 163, 177): room for at most 511 characters plus the NUL. -/
def infoLogBufSize : Nat := 512

/-- The window title passed to glfwCreateWindow (line 39). -/
def windowTitle : String := "OpenGL"

/-- The uniform name queried at line 192. -/
def uniformName : String := "ourColor"

/-- Error-stream banner of line 52 (version text appended at run time). -/
def versionMsg : String := "OpenGL "

/-- Error-stream message of line 43. -/
def windowFailMsg : String := "Failed to Create OpenGL Context"

/-- Error-stream message of line 139. -/
def vertexErrMsg : String := "Error compiling vertex shader"

/-- Error-stream message of line 164. -/
def fragmentErrMsg : String := "Error compiling fragment shader"

/-- Error-stream message of line 178. -/
def linkErrMsg : String := "Error linking shader program"

/-- EXIT_FAILURE (line 44). -/
def exitFailureCode : Nat := 1

/-- EXIT_SUCCESS (line 206). -/
def exitSuccessCode : Nat := 0

/-- The VAO handle returned by glGenVertexArrays (line 73): an unspecified
fresh nonzero handle, modelled as 1. -/
def vaoHandle : Nat := 1

/-- One observable API call of main.cpp.  Constructors carry the arguments
the claims talk about; GL object handles that are threaded through
unchanged (shader ids, the program id) are left implicit. -/
inductive GLEvent where
  | glfwInitCall : GLEvent
  | windowHint (h : Hint) (v : Nat) : GLEvent
  | createWindow (title : String) : GLEvent
  | writeErr (msg : String) : GLEvent
  | makeContextCurrent : GLEvent
  | gladLoadGLCall : GLEvent
  | clearColor (r g b a : ℚ) : GLEvent
  | clear : GLEvent
  | genVertexArrays : GLEvent
  | genBuffers : GLEvent
  | bindVertexArray (vao : Nat) : GLEvent
  | bindBuffer (target : BufTarget) : GLEvent
  | bufferData (target : BufTarget) (byteSize : Nat) : GLEvent
  | vertexAttribPointer (loc comps stride offset : Nat) : GLEvent
  | enableVertexAttribArray (loc : Nat) : GLEvent
  | createShader (k : ShaderKind) : GLEvent
  | shaderSource (k : ShaderKind) : GLEvent
  | compileShader (k : ShaderKind) : GLEvent
  | getShaderiv (k : ShaderKind) (status : Bool) : GLEvent
  | getShaderInfoLog (k : ShaderKind) (bufSize : Nat) : GLEvent
  | createProgram : GLEvent
  | attachShader (k : ShaderKind) : GLEvent
  | linkProgram : GLEvent
  | getProgramiv (status : Bool) : GLEvent
  | getProgramInfoLog (bufSize : Nat) : GLEvent
  | getTime (t : ℝ) : GLEvent
  | getUniformLocationQuery (uname : String) : GLEvent
  | useProgram : GLEvent
  | uniform4f (r g b a : ℝ) : GLEvent
  | drawElements (count : Nat) : GLEvent
  | swapBuffers : GLEvent
  | pollEvents : GLEvent
  | setWindowShouldClose : GLEvent
  | terminate : GLEvent

/-- renderObjects (lines 13-26): rebind the VAO, set the shader program,
draw drawCount indexed elements, and unbind the VAO. -/
def renderObjectsEvents (vao : Nat) : List GLEvent :=
  [GLEvent.bindVertexArray vao,
   GLEvent.useProgram,
   GLEvent.drawElements drawCount,
   GLEvent.bindVertexArray 0]

/-- Lines 31-39: glfwInit (return value discarded), the five window hints,
and glfwCreateWindow. -/
def bootEvents : List GLEvent :=
  [GLEvent.glfwInitCall,
   GLEvent.windowHint Hint.contextVersionMajor 4,
   GLEvent.windowHint Hint.contextVersionMinor 0,
   GLEvent.windowHint Hint.openglProfile glfwOpenglCoreProfile,
   GLEvent.windowHint Hint.openglForwardCompat 1,
   GLEvent.windowHint Hint.resizable 0,
   GLEvent.createWindow windowTitle]

/-- Lines 48-109: make the context current, load GL, print the version
banner, set the clear color and clear once, generate and populate the VAO,
VBO and EBO, and declare the two vertex attributes.  Buffer sizes are
sizeof(vertices) = 18 floats and sizeof(indices) = 3 unsigned ints. -/
def contextAndBufferEvents (vao : Nat) : List GLEvent :=
  [GLEvent.makeContextCurrent,
   GLEvent.gladLoadGLCall,
   GLEvent.writeErr versionMsg,
   GLEvent.clearColor 0.2 0.3 0.3 1,
   GLEvent.clear,
   GLEvent.genVertexArrays,
   GLEvent.genBuffers,
   GLEvent.genBuffers,
   GLEvent.bindVertexArray vao,
   GLEvent.bindBuffer BufTarget.array,
   GLEvent.bufferData BufTarget.array (vertices.length * floatSize),
   GLEvent.bindBuffer BufTarget.elementArray,
   GLEvent.bufferData BufTarget.elementArray (indices.length * uintSize),
   GLEvent.vertexAttribPointer positionAttribLocation 3 positionStride positionOffset,
   GLEvent.enableVertexAttribArray positionAttribLocation,
   GLEvent.vertexAttribPointer colorAttribLocation 3 colorStride colorOffset,
   GLEvent.enableVertexAttribArray colorAttribLocation,
   GLEvent.bindVertexArray 0]

/-- Lines 112-179: compile the vertex shader, query its status and log on
failure; same for the fragment shader; create the program, attach both,
link, query link status and log on failure.  The three status flags are the
external inputs vOk, fOk, linkOk. -/
def shaderBuildEvents (vOk fOk linkOk : Bool) : List GLEvent :=
  [GLEvent.createShader ShaderKind.vertex,
   GLEvent.shaderSource ShaderKind.vertex,
   GLEvent.compileShader ShaderKind.vertex,
   GLEvent.getShaderiv ShaderKind.vertex vOk]
  ++ (if vOk then []
      else [GLEvent.getShaderInfoLog ShaderKind.vertex infoLogBufSize,
            GLEvent.writeErr vertexErrMsg])
  ++ [GLEvent.createShader ShaderKind.fragment,
      GLEvent.shaderSource ShaderKind.fragment,
      GLEvent.compileShader ShaderKind.fragment,
      GLEvent.getShaderiv ShaderKind.fragment fOk]
  ++ (if fOk then []
      else [GLEvent.getShaderInfoLog ShaderKind.fragment infoLogBufSize,
            GLEvent.writeErr fragmentErrMsg])
  ++ [GLEvent.createProgram,
      GLEvent.attachShader ShaderKind.vertex,
      GLEvent.attachShader ShaderKind.fragment,
      GLEvent.linkProgram,
      GLEvent.getProgramiv linkOk]
  ++ (if linkOk then []
      else [GLEvent.getProgramInfoLog infoLogBufSize,
            GLEvent.writeErr linkErrMsg])

/-- Line 191: greenValue = sin(timeValue) / 2.0f + 0.5f, over the reals. -/
noncomputable def greenValue (t : ℝ) : ℝ := Real.sin t / 2 + 0.5

/-- One iteration of the render loop body (lines 184-203): optionally set
the close flag on escape, read the clock, query the uniform location, use
the program, write the animated uniform, call renderObjects, swap buffers
and poll events. -/
noncomputable def loopIterEvents (t : ℝ) (esc : Bool) : List GLEvent :=
  (if esc then [GLEvent.setWindowShouldClose] else [])
  ++ [GLEvent.getTime t,
      GLEvent.getUniformLocationQuery uniformName,
      GLEvent.useProgram,
      GLEvent.uniform4f 0 (greenValue t) 0 1]
  ++ renderObjectsEvents vaoHandle
  ++ [GLEvent.swapBuffers, GLEvent.pollEvents]

/-- The external inputs observed by the render loop at each iteration:
whether the escape key reads as pressed (line 184), whether event polling
delivers a window close request (line 203), and the glfwGetTime clock
reading (line 190). -/
structure LoopEnv where
  esc : Nat → Bool
  closeReq : Nat → Bool
  time : Nat → ℝ

/-- The while loop of lines 182-204, with fuel.  sc is the window's
should-close flag, checked at the top of each iteration; an iteration with
the escape key pressed sets it, and polling events sets it when the window
reports a close request.  Returns none when the fuel runs out before the
flag is observed true. -/
noncomputable def renderLoop (env : LoopEnv) : Nat → Nat → Bool → Option (List GLEvent)
  | 0, _, sc => if sc then some [] else none
  | fuel + 1, i, sc =>
    if sc then some []
    else (renderLoop env fuel (i + 1) (env.esc i || env.closeReq i)).map
      (fun es => loopIterEvents (env.time i) (env.esc i) ++ es)

/-- main (lines 28-207) as a trace plus exit code.  The first parameter is
the success of glfwInit: the source discards glfwInit's return value
(line 31), so no part of the trace depends on it.  windowOk is whether
glfwCreateWindow returned a valid handle (line 42); vOk, fOk, linkOk are
the compile/link status flags. -/
noncomputable def mainTrace (_initOk windowOk vOk fOk linkOk : Bool)
    (env : LoopEnv) (fuel : Nat) : Option (List GLEvent × Nat) :=
  if windowOk then
    (renderLoop env fuel 0 false).map (fun es =>
      (bootEvents ++ contextAndBufferEvents vaoHandle
        ++ shaderBuildEvents vOk fOk linkOk ++ es ++ [GLEvent.terminate],
       exitSuccessCode))
  else
    some (bootEvents ++ [GLEvent.writeErr windowFailMsg], exitFailureCode)

/-- A loop environment whose first iteration sees the escape key pressed:
the loop runs exactly one full iteration and then exits. -/
def escEnv : LoopEnv where
  esc := fun _ => true
  closeReq := fun _ => false
  time := fun _ => 0

/-- Claim C2: for every time value t read from the clock, the per-frame
green value equals sin(t)/2 + 0.5, which lies in [0,1]; in particular it is
0.5 at t = 0 and 1.0 at t = pi/2. -/
theorem c2_green_value_formula :
    (∀ t : ℝ, greenValue t = Real.sin t / 2 + 0.5
      ∧ 0 ≤ greenValue t ∧ greenValue t ≤ 1)
    ∧ greenValue 0 = 0.5
    ∧ greenValue (Real.pi / 2) = 1 := by
  refine ⟨fun t => ⟨rfl, ?_, ?_⟩, ?_, ?_⟩
  · have h := Real.neg_one_le_sin t
    unfold greenValue
    nlinarith
  · have h := Real.sin_le_one t
    unfold greenValue
    nlinarith
  · simp [greenValue]
  · rw [greenValue, Real.sin_pi_div_two]
    norm_num

/-- Claim C8: the attribute layout matches the interleaving of the uploaded
vertex array: 6 floats per vertex, both strides are 6*sizeof(float),
position offset 0, color offset 3*sizeof(float), and exactly these values
are pushed by the glVertexAttribPointer calls of the setup trace. -/
theorem c8_attribute_layout_matches :
    positionStride = floatsPerVertex * floatSize
    ∧ colorStride = floatsPerVertex * floatSize
    ∧ positionOffset = 0
    ∧ colorOffset = 3 * floatSize
    ∧ vertices.length = 3 * floatsPerVertex
    ∧ GLEvent.vertexAttribPointer positionAttribLocation 3 positionStride positionOffset
        ∈ contextAndBufferEvents vaoHandle
    ∧ GLEvent.vertexAttribPointer colorAttribLocation 3 colorStride colorOffset
        ∈ contextAndBufferEvents vaoHandle := by
  refine ⟨rfl, rfl, rfl, rfl, rfl, ?_, ?_⟩ <;> simp [contextAndBufferEvents]

/-- Claim C9 (violated by the code): renderObjects passes element count 6 to
glDrawElements, but only 3 indices were uploaded to the element buffer, so
the draw reads past the end of the uploaded index data. -/
theorem c9_draw_count_exceeds_uploaded_indices :
    drawCount = 6
    ∧ indices.length = 3
    ∧ ¬ drawCount ≤ indices.length
    ∧ GLEvent.drawElements drawCount ∈ renderObjectsEvents vaoHandle
    ∧ GLEvent.bufferData BufTarget.elementArray (indices.length * uintSize)
        ∈ contextAndBufferEvents vaoHandle := by
  refine ⟨rfl, rfl, by decide, ?_, ?_⟩ <;>
    simp [renderObjectsEvents, contextAndBufferEvents]

/-- Claim C1: every render-loop iteration reads the clock, queries the named
uniform, and makes the program current (glUseProgram) strictly before the
glUniform4f write of the time-varying green value; and every running
iteration of renderLoop emits exactly this iteration body. -/
theorem c1_useProgram_before_uniform_write :
    (∀ (t : ℝ) (esc : Bool), ∃ pre mid post,
      loopIterEvents t esc
        = pre ++ [GLEvent.useProgram] ++ mid
            ++ [GLEvent.uniform4f 0 (greenValue t) 0 1] ++ post
        ∧ GLEvent.getTime t ∈ pre
        ∧ GLEvent.getUniformLocationQuery uniformName ∈ pre)
    ∧ (∀ (env : LoopEnv) (fuel i : Nat),
        renderLoop env (fuel + 1) i false
          = (renderLoop env fuel (i + 1) (env.esc i || env.closeReq i)).map
              (fun es => loopIterEvents (env.time i) (env.esc i) ++ es)) := by
  constructor
  · intro t esc
    cases esc
    · exact ⟨[GLEvent.getTime t, GLEvent.getUniformLocationQuery uniformName],
        [], renderObjectsEvents vaoHandle ++ [GLEvent.swapBuffers, GLEvent.pollEvents],
        rfl, by simp, by simp⟩
    · exact ⟨[GLEvent.setWindowShouldClose, GLEvent.getTime t,
        GLEvent.getUniformLocationQuery uniformName],
        [], renderObjectsEvents vaoHandle ++ [GLEvent.swapBuffers, GLEvent.pollEvents],
        rfl, by simp, by simp⟩
  · intro env fuel i
    rfl

/-- Claim C3: for each shader compilation and for the link, the diagnostic
is written exactly when the queried status flag is false, every info-log
fetch passes a 512-byte buffer (at most 511 characters of log), and in
every case execution proceeds unconditionally: the link call is always
reached, and with a valid window the whole trace continues into the render
loop and the normal exit regardless of the three flags. -/
theorem c3_status_flag_logging :
    (∀ vOk fOk linkOk : Bool,
      (GLEvent.writeErr vertexErrMsg ∈ shaderBuildEvents vOk fOk linkOk ↔ vOk = false)
      ∧ (GLEvent.writeErr fragmentErrMsg ∈ shaderBuildEvents vOk fOk linkOk ↔ fOk = false)
      ∧ (GLEvent.writeErr linkErrMsg ∈ shaderBuildEvents vOk fOk linkOk ↔ linkOk = false)
      ∧ (∀ k n, GLEvent.getShaderInfoLog k n ∈ shaderBuildEvents vOk fOk linkOk
          → n - 1 = 511)
      ∧ (∀ n, GLEvent.getProgramInfoLog n ∈ shaderBuildEvents vOk fOk linkOk
          → n - 1 = 511)
      ∧ GLEvent.linkProgram ∈ shaderBuildEvents vOk fOk linkOk)
    ∧ (∀ (iOk vOk fOk linkOk : Bool) (env : LoopEnv) (fuel : Nat),
        mainTrace iOk true vOk fOk linkOk env fuel
          = (renderLoop env fuel 0 false).map (fun es =>
              (bootEvents ++ contextAndBufferEvents vaoHandle
                ++ shaderBuildEvents vOk fOk linkOk ++ es ++ [GLEvent.terminate],
               exitSuccessCode))) := by
  constructor
  · intro vOk fOk linkOk
    refine ⟨?_, ?_, ?_, ?_, ?_, ?_⟩ <;>
      cases vOk <;> cases fOk <;> cases linkOk <;>
        simp [shaderBuildEvents, vertexErrMsg, fragmentErrMsg, linkErrMsg,
          infoLogBufSize] <;>
      tauto
  · intro iOk vOk fOk linkOk env fuel
    rfl

/-- Claim C4: whenever main's trace is complete, the exit code is non-zero
with the context-failure diagnostic exactly when window creation returned no
valid handle; with a valid window the run tears down the windowing layer
(glfwTerminate) and exits 0. -/
theorem c4_window_failure_exit :
    ∀ (iOk wOk vOk fOk linkOk : Bool) (env : LoopEnv) (fuel : Nat)
      (es : List GLEvent) (code : Nat),
      mainTrace iOk wOk vOk fOk linkOk env fuel = some (es, code) →
      (((code ≠ exitSuccessCode ∧ GLEvent.writeErr windowFailMsg ∈ es) ↔ wOk = false)
       ∧ (wOk = true → code = exitSuccessCode ∧ GLEvent.terminate ∈ es)) := by
  intro iOk wOk vOk fOk linkOk env fuel es code h
  cases wOk
  · simp only [mainTrace, Bool.false_eq_true, if_false, Option.some.injEq,
      Prod.mk.injEq] at h
    obtain ⟨rfl, rfl⟩ := h
    refine ⟨?_, by simp⟩
    simp [exitFailureCode, exitSuccessCode]
  · simp only [mainTrace, if_true, Option.map_eq_some'] at h
    obtain ⟨es0, h0, hf⟩ := h
    obtain ⟨rfl, rfl⟩ := Prod.mk.injEq .. ▸ hf
    constructor
    · simp
    · intro _
      refine ⟨rfl, ?_⟩
      simp

/-- Witness for C4 at a concrete failing input: window creation fails,
fuel 0, all other flags true. -/
theorem c4_window_failure_exit_witness :
    ((exitFailureCode ≠ exitSuccessCode
        ∧ GLEvent.writeErr windowFailMsg
            ∈ bootEvents ++ [GLEvent.writeErr windowFailMsg]) ↔ false = false)
    ∧ (false = true → exitFailureCode = exitSuccessCode
        ∧ GLEvent.terminate ∈ bootEvents ++ [GLEvent.writeErr windowFailMsg]) :=
  c4_window_failure_exit true false true true true escEnv 0
    (bootEvents ++ [GLEvent.writeErr windowFailMsg]) exitFailureCode rfl

/-- Counterexample to claim C5: a complete run of the render loop (one full
iteration, then exit) whose events contain no clear of the color buffer:
the clear happens once before the loop, not per iteration. -/
theorem c5_no_clear_in_loop_run :
    (renderLoop escEnv 2 0 false).isSome = true
    ∧ GLEvent.clear ∉ (renderLoop escEnv 2 0 false).getD [] := by
  constructor <;>
    simp [renderLoop, escEnv, loopIterEvents, renderObjectsEvents]

/-- Claim C5 as amended: the color buffer is cleared to the fixed
background color once during initialization, before the render loop starts;
no loop iteration clears it. -/
theorem c5_clear_once_before_loop :
    (∃ l1 l2, contextAndBufferEvents vaoHandle
        = l1 ++ [GLEvent.clearColor 0.2 0.3 0.3 1, GLEvent.clear] ++ l2)
    ∧ (∀ (t : ℝ) (esc : Bool), GLEvent.clear ∉ loopIterEvents t esc)
    ∧ (∀ (iOk vOk fOk linkOk : Bool) (env : LoopEnv) (fuel : Nat),
        mainTrace iOk true vOk fOk linkOk env fuel
          = (renderLoop env fuel 0 false).map (fun es =>
              (bootEvents ++ contextAndBufferEvents vaoHandle
                ++ shaderBuildEvents vOk fOk linkOk ++ es ++ [GLEvent.terminate],
               exitSuccessCode))) := by
  refine ⟨⟨[GLEvent.makeContextCurrent, GLEvent.gladLoadGLCall,
      GLEvent.writeErr versionMsg],
      [GLEvent.genVertexArrays, GLEvent.genBuffers, GLEvent.genBuffers,
       GLEvent.bindVertexArray vaoHandle,
       GLEvent.bindBuffer BufTarget.array,
       GLEvent.bufferData BufTarget.array (vertices.length * floatSize),
       GLEvent.bindBuffer BufTarget.elementArray,
       GLEvent.bufferData BufTarget.elementArray (indices.length * uintSize),
       GLEvent.vertexAttribPointer positionAttribLocation 3 positionStride
         positionOffset,
       GLEvent.enableVertexAttribArray positionAttribLocation,
       GLEvent.vertexAttribPointer colorAttribLocation 3 colorStride colorOffset,
       GLEvent.enableVertexAttribArray colorAttribLocation,
       GLEvent.bindVertexArray 0], rfl⟩, ?_, fun _ _ _ _ _ _ => rfl⟩
  intro t esc
  cases esc <;> simp [loopIterEvents, renderObjectsEvents]

/-- Claim C6: when an iteration observes the escape key pressed (or a close
request), that iteration still completes the draw, the buffer swap and the
event poll, and the loop exits exactly at the next iteration boundary: the
remaining loop events are that one full iteration and nothing more. -/
theorem c6_escape_completes_frame_then_exits :
    ∀ (env : LoopEnv) (i fuel : Nat),
      (env.esc i || env.closeReq i) = true →
      renderLoop env (fuel + 2) i false
        = some (loopIterEvents (env.time i) (env.esc i))
      ∧ GLEvent.drawElements drawCount ∈ loopIterEvents (env.time i) (env.esc i)
      ∧ GLEvent.swapBuffers ∈ loopIterEvents (env.time i) (env.esc i)
      ∧ GLEvent.pollEvents ∈ loopIterEvents (env.time i) (env.esc i) := by
  intro env i fuel h
  refine ⟨?_, ?_, ?_, ?_⟩
  · simp [renderLoop, h]
  all_goals cases hesc : env.esc i <;> simp [loopIterEvents, renderObjectsEvents]

/-- Witness for C6: the escape environment at iteration 0 with fuel 0. -/
theorem c6_escape_witness :
    renderLoop escEnv 2 0 false
      = some (loopIterEvents (escEnv.time 0) (escEnv.esc 0))
    ∧ GLEvent.drawElements drawCount ∈ loopIterEvents (escEnv.time 0) (escEnv.esc 0)
    ∧ GLEvent.swapBuffers ∈ loopIterEvents (escEnv.time 0) (escEnv.esc 0)
    ∧ GLEvent.pollEvents ∈ loopIterEvents (escEnv.time 0) (escEnv.esc 0) :=
  c6_escape_completes_frame_then_exits escEnv 0 0 rfl

/-- Counterexample to claim C7: a complete run in which the link status flag
is false (the program never successfully linked) still issues an indexed
draw call, so a draw references the program without a successful link. -/
theorem c7_draw_occurs_despite_link_failure :
    (mainTrace true true true true false escEnv 1).isSome = true
    ∧ GLEvent.getProgramiv false
        ∈ ((mainTrace true true true true false escEnv 1).getD ([], 0)).1
    ∧ GLEvent.drawElements drawCount
        ∈ ((mainTrace true true true true false escEnv 1).getD ([], 0)).1 := by
  refine ⟨?_, ?_, ?_⟩ <;>
    simp [mainTrace, renderLoop, escEnv, bootEvents, contextAndBufferEvents,
      shaderBuildEvents, loopIterEvents, renderObjectsEvents]

/-- Claim C7 as amended: the vertex and index buffers are populated before
the attribute layout referencing them is defined, the link call is issued
before any draw call, and the vertex-array object is bound before every
draw call; the code does not, however, require the link to have succeeded:
it draws even when the link status flag is false, so only the ordering of
the link call (not its success) holds. -/
theorem c7_ordering_invariants :
    (∃ l1 l2, contextAndBufferEvents vaoHandle = l1 ++ l2
      ∧ GLEvent.bufferData BufTarget.array (vertices.length * floatSize) ∈ l1
      ∧ GLEvent.bufferData BufTarget.elementArray (indices.length * uintSize) ∈ l1
      ∧ GLEvent.vertexAttribPointer positionAttribLocation 3 positionStride
          positionOffset ∈ l2
      ∧ GLEvent.vertexAttribPointer colorAttribLocation 3 colorStride
          colorOffset ∈ l2)
    ∧ (∀ vao, ∃ l2 l3, renderObjectsEvents vao
        = [GLEvent.bindVertexArray vao] ++ l2
            ++ [GLEvent.drawElements drawCount] ++ l3)
    ∧ (∀ (iOk vOk fOk linkOk : Bool) (env : LoopEnv) (fuel : Nat)
        (es : List GLEvent) (code : Nat),
        mainTrace iOk true vOk fOk linkOk env fuel = some (es, code) →
        ∃ pre post, es = pre ++ post
          ∧ GLEvent.linkProgram ∈ pre
          ∧ (∀ n, GLEvent.drawElements n ∉ pre)) := by
  refine ⟨⟨[GLEvent.makeContextCurrent, GLEvent.gladLoadGLCall,
      GLEvent.writeErr versionMsg,
      GLEvent.clearColor 0.2 0.3 0.3 1, GLEvent.clear,
      GLEvent.genVertexArrays, GLEvent.genBuffers, GLEvent.genBuffers,
      GLEvent.bindVertexArray vaoHandle,
      GLEvent.bindBuffer BufTarget.array,
      GLEvent.bufferData BufTarget.array (vertices.length * floatSize),
      GLEvent.bindBuffer BufTarget.elementArray,
      GLEvent.bufferData BufTarget.elementArray (indices.length * uintSize)],
      [GLEvent.vertexAttribPointer positionAttribLocation 3 positionStride
        positionOffset,
       GLEvent.enableVertexAttribArray positionAttribLocation,
       GLEvent.vertexAttribPointer colorAttribLocation 3 colorStride colorOffset,
       GLEvent.enableVertexAttribArray colorAttribLocation,
       GLEvent.bindVertexArray 0],
      rfl, by simp, by simp, by simp, by simp⟩,
    fun vao => ⟨[GLEvent.useProgram], [GLEvent.bindVertexArray 0], rfl⟩, ?_⟩
  intro iOk vOk fOk linkOk env fuel es code h
  simp only [mainTrace, if_true, Option.map_eq_some'] at h
  obtain ⟨es0, h0, hf⟩ := h
  obtain ⟨rfl, rfl⟩ := Prod.mk.injEq .. ▸ hf
  refine ⟨bootEvents ++ contextAndBufferEvents vaoHandle
      ++ shaderBuildEvents vOk fOk linkOk,
    es0 ++ [GLEvent.terminate], by simp, ?_, ?_⟩
  · simp [bootEvents, contextAndBufferEvents, shaderBuildEvents]
  · intro n
    cases vOk <;> cases fOk <;> cases linkOk <;>
      simp [bootEvents, contextAndBufferEvents, shaderBuildEvents]

/-- Claim C10: the return value of glfwInit is never checked: the whole
trace is independent of it, and the boot sequence unconditionally proceeds
from glfwInit through the window hints to glfwCreateWindow. -/
theorem c10_glfw_init_result_ignored :
    (∀ (a b wOk vOk fOk linkOk : Bool) (env : LoopEnv) (fuel : Nat),
        mainTrace a wOk vOk fOk linkOk env fuel
          = mainTrace b wOk vOk fOk linkOk env fuel)
    ∧ bootEvents
        = [GLEvent.glfwInitCall,
           GLEvent.windowHint Hint.contextVersionMajor 4,
           GLEvent.windowHint Hint.contextVersionMinor 0,
           GLEvent.windowHint Hint.openglProfile glfwOpenglCoreProfile,
           GLEvent.windowHint Hint.openglForwardCompat 1,
           GLEvent.windowHint Hint.resizable 0,
           GLEvent.createWindow windowTitle]
    ∧ GLEvent.createWindow windowTitle ∈ bootEvents := by
  refine ⟨fun a b wOk vOk fOk linkOk env fuel => rfl, rfl, ?_⟩
  simp [bootEvents]

end Glitter
